/-
Verification of the Wasb remote task-log handler
(src/airflow/providers/microsoft/azure/log/wasb_task_handler.py).

The handler mirrors locally written task logs to an Azure Wasb blob store at
close time and serves reads remote-first with a local fallback.  The shallow
embedding below models:

  * the remote blob store as an association list keyed by (container, path);
  * the Wasb hook (external collaborator) as a record of fallible operations
    returning `Except PyError _`, where `PyError.azureHttpError` stands for
    `azure.common.AzureHttpError` (the only exception class the read/write
    primitives catch) and `PyError.other` stands for every other Python
    exception, such as the `AttributeError` raised by attribute access on
    `None` when the hook could not be constructed;
  * the handler's mutable state (`closed`, `upload_on_close`,
    `log_relative_path`, ...) as an explicit record threaded through the
    operations;
  * side effects of `close` (parent close, remote-write call, recursive
    local delete) as an explicit event trace.

Path handling follows POSIX `os.path.join` / `os.path.dirname`.
-/
import Mathlib

namespace WasbSpec

/-- Python exception classes relevant to the handler: `azureHttpError` is
`azure.common.AzureHttpError`; `other` is any other exception (for instance
the `AttributeError` raised by `None.read_file` when the hook is absent). -/
inductive PyError where
  | azureHttpError
  | other
  deriving DecidableEq, Repr

/-- The remote blob store: association list from (container, blob path) to
blob content.  Later entries are shadowed by earlier ones. -/
abbrev RemoteStore := List ((String × String) × String)

/-- Look up a blob's content. -/
def RemoteStore.get : RemoteStore → String → String → Option String
  | [], _, _ => none
  | (k, v) :: rest, c, loc => if k = (c, loc) then some v else RemoteStore.get rest c loc

/-- Overwrite a blob's content (new binding shadows any old one). -/
def RemoteStore.set (st : RemoteStore) (c loc v : String) : RemoteStore :=
  ((c, loc), v) :: st

/-- The local filesystem visible to the handler: association list from file
path to file content. -/
abbrev LocalFs := List (String × String)

/-- Look up a local file's content (`os.path.exists` + `open(...).read()`). -/
def LocalFs.get : LocalFs → String → Option String
  | [], _ => none
  | (k, v) :: rest, p => if k = p then some v else LocalFs.get rest p

/-- Effect of `shutil.rmtree(d)`: every file strictly below directory `d`
disappears. -/
def LocalFs.removeUnder (fs : LocalFs) (d : String) : LocalFs :=
  fs.filter (fun e => !List.isPrefixOf (d ++ "/").data e.1.data)

/-- POSIX `os.path.join` for two components, as used by the handler:
an absolute second component wins; otherwise the parts are glued with a
single `/` (joining with the empty string appends a trailing separator). -/
def joinPath (a b : String) : String :=
  if b.data.head? = some '/' then b
  else if a = "" then b
  else if a.data.getLast? = some '/' then a ++ b
  else a ++ "/" ++ b

/-- POSIX `os.path.dirname`: everything up to the last `/`, with trailing
slashes stripped unless the head is all slashes. -/
def dirname (p : String) : String :=
  let cs := p.data
  let head := (cs.reverse.dropWhile (fun c => decide (c ≠ '/'))).reverse
  let head' :=
    if head ≠ [] ∧ head.any (fun c => decide (c ≠ '/')) then
      (head.reverse.dropWhile (fun c => decide (c = '/'))).reverse
    else head
  String.mk head'

/-- The Wasb hook (external collaborator `WasbHook`): each operation acts on
the remote store and may raise.  `load_string`'s `Bool` argument is the
`overwrite` flag; a successful `load_string` returns the updated store. -/
structure WasbHook where
  check_for_blob : String → String → RemoteStore → Except PyError Bool
  read_file : String → String → RemoteStore → Except PyError String
  load_string : String → String → String → Bool → RemoteStore → Except PyError RemoteStore

/-- A hook faithfully backed by the store: existence is key presence, read
returns the stored content (raising `AzureHttpError` on an absent blob), and
`load_string` with overwrite stores the text. -/
def storeHook : WasbHook where
  check_for_blob c loc st := .ok (st.get c loc).isSome
  read_file c loc st :=
    match st.get c loc with
    | some s => .ok s
    | none => .error .azureHttpError
  load_string text c loc _overwrite st := .ok (st.set c loc text)

/-- Task-instance identity as consumed by the handler: its current try
number and the raw-run flag. -/
structure Ti where
  tryNumber : Nat
  raw : Bool
  deriving DecidableEq, Repr

/-- Status map returned by a read (Python dict such as
`{'end_of_log': True}`). -/
abbrev MetaMap := List (String × Bool)

/-- External collaborators of the handler: the (memoized, possibly
failed-to-construct) hook, the deterministic filename templating function
`_render_filename`, and the parent `FileTaskHandler._read` local read path
(taking the task instance, try number and optional metadata token). -/
structure Env where
  hook : Option WasbHook
  renderFilename : Ti → Nat → String
  parentRead : Ti → Nat → Option String → String × MetaMap

/-- Per-instance mutable state of `WasbTaskHandler`. -/
structure HandlerState where
  wasb_container : String
  remote_base : String
  local_base : String
  log_relative_path : String
  closed : Bool
  upload_on_close : Bool
  delete_local_copy : Bool
  deriving DecidableEq, Repr

/-- `WasbTaskHandler.__init__`: the parent `FileTaskHandler` records
`base_log_folder` as `local_base`; the handler then initialises its own
fields (`log_relative_path = ''`, `closed = False`, `upload_on_close =
True`). -/
def init (base_log_folder wasb_log_folder wasb_container : String)
    (delete_local_copy : Bool) : HandlerState :=
  { wasb_container := wasb_container
    remote_base := wasb_log_folder
    local_base := base_log_folder
    log_relative_path := ""
    closed := false
    upload_on_close := true
    delete_local_copy := delete_local_copy }

/-- `WasbTaskHandler.set_context`: after the parent's local-context setup,
record the rendered relative path for (ti, ti.try_number) and decide
`upload_on_close = not ti.raw`. -/
def set_context (env : Env) (ti : Ti) (st : HandlerState) : HandlerState :=
  { st with
      log_relative_path := env.renderFilename ti ti.tryNumber
      upload_on_close := !ti.raw }

/-- `WasbTaskHandler.wasb_log_exists`: delegates to
`hook.check_for_blob`; the surrounding `except Exception` swallows every
exception — including the `AttributeError` from a `None` hook — and the
function then returns `False`. -/
def wasb_log_exists (hook : Option WasbHook) (container loc : String)
    (store : RemoteStore) : Bool :=
  match hook with
  | none => false
  | some h =>
    match h.check_for_blob container loc store with
    | .ok b => b
    | .error _ => false

/-- The error message `wasb_read` formats on `AzureHttpError`. -/
def readErrMsg (loc : String) : String :=
  "Could not read logs from " ++ loc

/-- `WasbTaskHandler.wasb_read`: delegates to `hook.read_file`, catching
only `AzureHttpError` (returning the formatted message when `return_error`
is true, else the empty string).  A `None` hook raises `AttributeError`
(`PyError.other`), which is not caught, and any non-Azure exception from
`read_file` propagates. -/
def wasb_read (hook : Option WasbHook) (container loc : String)
    (return_error : Bool) (store : RemoteStore) : Except PyError String :=
  match hook with
  | none => .error .other
  | some h =>
    match h.read_file container loc store with
    | .ok s => .ok s
    | .error .azureHttpError => .ok (if return_error then readErrMsg loc else "")
    | .error .other => .error .other

/-- `WasbTaskHandler.wasb_write`: when `append` holds and the blob exists,
merge the old content (read with `return_error=False`) with the new text,
newline-separated, old first — unless the old content is empty.  Then
`hook.load_string(log, container, loc, overwrite=True)`, catching only
`AzureHttpError` (swallowed, store unchanged); a `None` hook at that call
raises `AttributeError`, and non-Azure exceptions propagate. -/
def wasb_write (hook : Option WasbHook) (container : String)
    (log loc : String) (append : Bool) (store : RemoteStore) :
    Except PyError RemoteStore :=
  let store_it : String → Except PyError RemoteStore := fun text =>
    match hook with
    | none => .error .other
    | some h =>
      match h.load_string text container loc true store with
      | .ok store' => .ok store'
      | .error .azureHttpError => .ok store
      | .error .other => .error .other
  if append && wasb_log_exists hook container loc store then
    match wasb_read hook container loc false store with
    | .error e => .error e
    | .ok old_log =>
      store_it (if old_log ≠ "" then old_log ++ "\n" ++ log else log)
  else
    store_it log

/-- Observable side effects of `close`, in program order. -/
inductive Event where
  | parentClose
  | remoteWriteCall (loc : String) (text : String)
  | localDelete (dir : String)
  deriving DecidableEq, Repr

/-- Whether an event is the remote-write call. -/
def Event.isRemoteWrite : Event → Bool
  | .remoteWriteCall _ _ => true
  | _ => false

/-- Result of a `close` call: the handler state, the remote store and the
local filesystem afterwards, the trace of side effects performed, and the
exception that escaped, if any (Python mutations made before the raise
point persist). -/
structure CloseResult where
  st : HandlerState
  store : RemoteStore
  fs : LocalFs
  trace : List Event
  raised : Option PyError
  deriving Repr

/-- `WasbTaskHandler.close`: return immediately when already closed; call the
parent close; return (without marking closed) when `upload_on_close` is
false; otherwise join the roots with the recorded relative path, and if a
local log file exists, read it, call `wasb_write(log, remote_loc,
append=True)` and — when `delete_local_copy` — `shutil.rmtree` the file's
directory; finally set `closed = True` (not reached if `wasb_write`
raised). -/
def close (hook : Option WasbHook) (st : HandlerState) (fs : LocalFs)
    (store : RemoteStore) : CloseResult :=
  if st.closed then ⟨st, store, fs, [], none⟩
  else
    let tr := [Event.parentClose]
    if !st.upload_on_close then ⟨st, store, fs, tr, none⟩
    else
      let local_loc := joinPath st.local_base st.log_relative_path
      let remote_loc := joinPath st.remote_base st.log_relative_path
      match fs.get local_loc with
      | none => ⟨{ st with closed := true }, store, fs, tr, none⟩
      | some log =>
        let tr := tr ++ [Event.remoteWriteCall remote_loc log]
        match wasb_write hook st.wasb_container log remote_loc true store with
        | .error e => ⟨st, store, fs, tr, some e⟩
        | .ok store' =>
          if st.delete_local_copy then
            let d := dirname local_loc
            ⟨{ st with closed := true }, store', fs.removeUnder d,
              tr ++ [Event.localDelete d], none⟩
          else
            ⟨{ st with closed := true }, store', fs, tr, none⟩

/-- Header line `_read` wraps around remote content. -/
def remoteHeader (remote_loc content : String) : String :=
  "*** Reading remote log from " ++ remote_loc ++ ".\n" ++ content ++ "\n"

/-- `WasbTaskHandler._read`: render the relative path afresh for
(ti, try_number); if the remote blob exists, return the remote content
(read with `return_error=True`) wrapped with a header and
`{'end_of_log': True}`; otherwise delegate to `super()._read(ti,
try_number)` — note the metadata argument is not forwarded, so the parent
sees its default `None`. -/
def read_logs (env : Env) (st : HandlerState) (store : RemoteStore)
    (ti : Ti) (try_number : Nat) (_metadata : Option String) :
    Except PyError (String × MetaMap) :=
  let rel := env.renderFilename ti try_number
  let remote_loc := joinPath st.remote_base rel
  if wasb_log_exists env.hook st.wasb_container remote_loc store then
    match wasb_read env.hook st.wasb_container remote_loc true store with
    | .error e => .error e
    | .ok remote_log => .ok (remoteHeader remote_loc remote_log, [("end_of_log", true)])
  else
    .ok (env.parentRead ti try_number none)

/-! ### Concrete artifacts used by witnesses and counterexamples -/

/-- A hook whose operations all succeed: the blob always exists, reads return
`"REMOTE"`, writes store the text. -/
def okHook : WasbHook where
  check_for_blob _ _ _ := .ok true
  read_file _ _ _ := .ok "REMOTE"
  load_string text c loc _overwrite st := .ok (st.set c loc text)

/-- A hook whose existence check succeeds but whose read raises
`AzureHttpError`. -/
def azureFailHook : WasbHook where
  check_for_blob _ _ _ := .ok true
  read_file _ _ _ := .error .azureHttpError
  load_string _ _ _ _overwrite st := .ok st

/-- A hook whose existence check succeeds but whose read raises an exception
that is not `AzureHttpError` (for instance a `ValueError` or an
`AttributeError` from deeper inside the client). -/
def otherFailHook : WasbHook where
  check_for_blob _ _ _ := .ok true
  read_file _ _ _ := .error .other
  load_string _ _ _ _overwrite st := .ok st

/-- A demonstration environment whose hook is absent and whose parent read
path reports which metadata token it actually received. -/
def demoEnv : Env where
  hook := none
  renderFilename _ _ := "r"
  parentRead _ _ m := ((match m with | some s => s | none => "NOMETA"), [("end_of_log", false)])

/-- A demonstration environment whose remote side works: the blob exists and
reads return `"REMOTE"`. -/
def okEnv : Env where
  hook := some okHook
  renderFilename _ _ := "r"
  parentRead _ _ m := ((match m with | some s => s | none => "NOMETA"), [("end_of_log", false)])

/-- A demonstration environment whose remote existence check reports present
but whose remote read raises a non-`AzureHttpError` exception. -/
def otherFailEnv : Env where
  hook := some otherFailHook
  renderFilename _ _ := "r"
  parentRead _ _ m := ((match m with | some s => s | none => "NOMETA"), [("end_of_log", false)])

/-! ### Claim theorems -/

/-- C3, counterexample: the claim says the remote read primitive never
propagates an exception, including when the remote handle could not be
constructed.  In the code `wasb_read` catches only `AzureHttpError`, so with
an absent hook (`self.hook` is `None`) the `AttributeError` raised by
`None.read_file` propagates to the caller, for both values of
`return_error`. -/
theorem wasb_read_none_hook_raises :
    wasb_read none "container" "remote/loc/1.log" true [] = .error .other
    ∧ wasb_read none "container" "remote/loc/1.log" false [] = .error .other :=
  ⟨rfl, rfl⟩

/-- C3, amended: when the underlying remote read fails with `AzureHttpError`,
`wasb_read` does not propagate: with `return_error=true` it returns the
non-empty message `"Could not read logs from <loc>"` (which contains the
target location), and with `return_error=false` it returns the empty string.
But when the remote handle could not be constructed (hook absent), the
resulting `AttributeError` is not caught and propagates. -/
theorem wasb_read_error_handling (h : WasbHook) (c loc : String) (r : Bool)
    (store : RemoteStore)
    (hfail : h.read_file c loc store = .error .azureHttpError) :
    wasb_read (some h) c loc true store = .ok (readErrMsg loc)
    ∧ wasb_read (some h) c loc false store = .ok ""
    ∧ readErrMsg loc ≠ ""
    ∧ (∃ pre, pre ≠ "" ∧ readErrMsg loc = pre ++ loc)
    ∧ wasb_read none c loc r store = .error .other := by
  refine ⟨?_, ?_, ?_, ⟨"Could not read logs from ", by decide, rfl⟩, rfl⟩
  · simp [wasb_read, hfail]
  · simp [wasb_read, hfail]
  · intro hc
    have hl := congrArg String.length hc
    simp [readErrMsg, String.length_append] at hl
    exact absurd hl.1 (by decide)

/-- C3, witness for `wasb_read_error_handling` at a concrete failing hook. -/
theorem wasb_read_error_handling_witness :
    wasb_read (some azureFailHook) "c" "p/1.log" true [] = .ok (readErrMsg "p/1.log")
    ∧ wasb_read (some azureFailHook) "c" "p/1.log" false [] = .ok "" :=
  ⟨(wasb_read_error_handling azureFailHook "c" "p/1.log" true [] rfl).1,
   (wasb_read_error_handling azureFailHook "c" "p/1.log" false [] rfl).2.1⟩

/-- C4: the docstring of `wasb_write` states "Fails silently if no hook was
created", and the claim says a write with an unavailable remote handle
returns normally.  In the code `wasb_write` catches only `AzureHttpError`,
so with an absent hook the `AttributeError` raised by `None.load_string`
propagates out of the primitive (the append-mode existence check swallows
its own exception and reports absent first). -/
theorem wasb_write_none_hook_raises :
    wasb_write none "container" "B" "remote/loc/1.log" true [] = .error .other
    ∧ wasb_write none "container" "B" "remote/loc/1.log" false [] = .error .other :=
  ⟨rfl, rfl⟩

/-- C5: against a store-backed hook, `wasb_write` with `append=true` over
existing non-empty content `old` stores `old ++ "\n" ++ text` (old first);
over an absent blob, or one holding the empty string, it stores the new
text alone. -/
theorem wasb_write_append_ordering (store : RemoteStore) (c loc old text : String) :
    (store.get c loc = some old → old ≠ "" →
      ∃ s, wasb_write (some storeHook) c text loc true store = .ok s
        ∧ s.get c loc = some (old ++ "\n" ++ text))
    ∧ (store.get c loc = none →
      ∃ s, wasb_write (some storeHook) c text loc true store = .ok s
        ∧ s.get c loc = some text)
    ∧ (store.get c loc = some "" →
      ∃ s, wasb_write (some storeHook) c text loc true store = .ok s
        ∧ s.get c loc = some text) := by
  refine ⟨?_, ?_, ?_⟩
  · intro hget hne
    refine ⟨store.set c loc (old ++ "\n" ++ text), ?_, by simp [RemoteStore.set, RemoteStore.get]⟩
    simp [wasb_write, wasb_log_exists, wasb_read, storeHook, hget, hne]
  · intro hget
    refine ⟨store.set c loc text, ?_, by simp [RemoteStore.set, RemoteStore.get]⟩
    simp [wasb_write, wasb_log_exists, wasb_read, storeHook, hget]
  · intro hget
    refine ⟨store.set c loc text, ?_, by simp [RemoteStore.set, RemoteStore.get]⟩
    simp [wasb_write, wasb_log_exists, wasb_read, storeHook, hget]

/-- C5, witness: writing `"B"` over existing `"A"` stores `"A\nB"`; writing
`"B"` to an absent blob stores `"B"`. -/
theorem wasb_write_append_ordering_witness :
    (∃ s, wasb_write (some storeHook) "c" "B" "l" true [(("c", "l"), "A")] = .ok s
      ∧ s.get "c" "l" = some "A\nB")
    ∧ (∃ s, wasb_write (some storeHook) "c" "B" "l" true [] = .ok s
      ∧ s.get "c" "l" = some "B") :=
  ⟨(wasb_write_append_ordering [(("c", "l"), "A")] "c" "l" "A" "B").1 (by decide) (by decide),
   (wasb_write_append_ordering [] "c" "l" "A" "B").2.1 rfl⟩

/-- C8: the existence-check primitive never propagates: it returns `false`
when the remote handle is absent and when the underlying check raises any
exception, and otherwise returns the underlying check's boolean result. -/
theorem wasb_log_exists_safe (hook : Option WasbHook) (c loc : String)
    (store : RemoteStore) :
    (hook = none → wasb_log_exists hook c loc store = false)
    ∧ (∀ h e, hook = some h → h.check_for_blob c loc store = .error e →
        wasb_log_exists hook c loc store = false)
    ∧ (∀ h b, hook = some h → h.check_for_blob c loc store = .ok b →
        wasb_log_exists hook c loc store = b) := by
  refine ⟨?_, ?_, ?_⟩
  · rintro rfl; rfl
  · rintro h e rfl hc
    simp [wasb_log_exists, hc]
  · rintro h b rfl hc
    simp [wasb_log_exists, hc]

/-- C8, witness for `wasb_log_exists_safe` at concrete hooks. -/
theorem wasb_log_exists_safe_witness :
    wasb_log_exists (some okHook) "c" "l" [] = true
    ∧ wasb_log_exists none "c" "l" [] = false :=
  ⟨(wasb_log_exists_safe (some okHook) "c" "l" []).2.2 okHook true rfl rfl,
   (wasb_log_exists_safe none "c" "l" []).1 rfl⟩

/-- C2, amended: when the existence check reports the remote location
absent, `_read` delegates to the parent local read path and returns exactly
its result, unmodified — but the parent is invoked as `super()._read(ti,
try_number)`, so the caller-supplied metadata token is dropped and the
parent sees its default `None`, whatever token was supplied. -/
theorem read_fallback_on_absence (env : Env) (st : HandlerState)
    (store : RemoteStore) (ti : Ti) (n : Nat) (meta : Option String)
    (hex : wasb_log_exists env.hook st.wasb_container
      (joinPath st.remote_base (env.renderFilename ti n)) store = false) :
    read_logs env st store ti n meta = .ok (env.parentRead ti n none) := by
  simp [read_logs, hex]

/-- C2, witness for `read_fallback_on_absence` at a concrete environment. -/
theorem read_fallback_on_absence_witness :
    read_logs demoEnv (init "/lb" "/rb" "c" false) [] ⟨1, false⟩ 1 none
      = .ok (demoEnv.parentRead ⟨1, false⟩ 1 none) :=
  read_fallback_on_absence demoEnv (init "/lb" "/rb" "c" false) [] ⟨1, false⟩ 1 none rfl

/-- C2, counterexample: the claim says the metadata token is passed through
unchanged to the local-fallback path.  With a parent read that reports the
token it received, calling `_read` with token `"tok"` yields `"NOMETA"`:
the parent was called with `None`, not with the supplied token. -/
theorem read_fallback_drops_metadata :
    read_logs demoEnv (init "/lb" "/rb" "c" false) [] ⟨1, false⟩ 1 (some "tok")
      = .ok ("NOMETA", [("end_of_log", false)])
    ∧ demoEnv.parentRead ⟨1, false⟩ 1 (some "tok") = ("tok", [("end_of_log", false)]) :=
  ⟨rfl, rfl⟩

/-- C7, counterexample: the claim says that whenever the existence check
reports the remote location present, `_read` returns header-wrapped text
(remote content or an inline error string) with `end_of_log = true`.  But
`wasb_read` (called with `return_error=True`) catches only
`AzureHttpError`: with a hook whose existence check reports present and
whose read raises any other exception class, the exception propagates out
of `_read` — no text is returned and no completion is signalled. -/
theorem read_remote_propagates_other_error :
    wasb_log_exists otherFailEnv.hook "c" (joinPath "/rb" "r") [] = true
    ∧ read_logs otherFailEnv (init "/lb" "/rb" "c" false) [] ⟨1, false⟩ 1 none
        = .error .other :=
  ⟨rfl, rfl⟩

/-- C7, amended: when the existence check reports the remote location
present and the underlying remote read either succeeds or fails with the
HTTP error class (`AzureHttpError`, the only one `wasb_read` catches),
`_read` returns the remote content — or the inline error message on that
caught failure — wrapped with the header line naming the remote location,
along with `end_of_log = true`; the relative path is recomputed from
(ti, try_number), so the result is independent of the `log_relative_path`
cached at context establishment; and the parent local read path is never
consulted (the result is independent of it).  A non-`AzureHttpError`
failure of the underlying read instead propagates out of `_read`. -/
theorem read_remote_first (env : Env) (st : HandlerState) (store : RemoteStore)
    (ti : Ti) (n : Nat) (meta : Option String)
    (hex : wasb_log_exists env.hook st.wasb_container
      (joinPath st.remote_base (env.renderFilename ti n)) store = true)
    (hra : ∀ h, env.hook = some h →
      h.read_file st.wasb_container (joinPath st.remote_base (env.renderFilename ti n)) store
        ≠ Except.error PyError.other) :
    (∃ content,
      read_logs env st store ti n meta
        = .ok (remoteHeader (joinPath st.remote_base (env.renderFilename ti n)) content,
            [("end_of_log", true)])
      ∧ (∀ h s, env.hook = some h →
          h.read_file st.wasb_container (joinPath st.remote_base (env.renderFilename ti n)) store
            = .ok s → content = s)
      ∧ (∀ h, env.hook = some h →
          h.read_file st.wasb_container (joinPath st.remote_base (env.renderFilename ti n)) store
            = .error .azureHttpError →
          content = readErrMsg (joinPath st.remote_base (env.renderFilename ti n))))
    ∧ (∀ rp, read_logs env { st with log_relative_path := rp } store ti n meta
        = read_logs env st store ti n meta)
    ∧ (∀ pr, read_logs { env with parentRead := pr } st store ti n meta
        = read_logs env st store ti n meta) := by
  refine ⟨?_, fun rp => rfl, fun pr => by simp [read_logs, hex]⟩
  obtain ⟨h, hh⟩ : ∃ h, env.hook = some h := by
    cases hhook : env.hook with
    | none => rw [hhook] at hex; exact absurd hex (by simp [wasb_log_exists])
    | some h => exact ⟨h, rfl⟩
  rw [hh] at hex
  cases hrf : h.read_file st.wasb_container
      (joinPath st.remote_base (env.renderFilename ti n)) store with
  | ok s =>
    refine ⟨s, ?_, ?_, ?_⟩
    · simp [read_logs, hex, wasb_read, hh, hrf]
    · rintro h2 s2 hh2 hrf2
      rw [hh] at hh2
      injection hh2 with hh2
      subst hh2
      rw [hrf] at hrf2
      simpa using hrf2
    · rintro h2 hh2 hrf2
      rw [hh] at hh2
      injection hh2 with hh2
      subst hh2
      rw [hrf] at hrf2
      exact absurd hrf2 (by simp)
  | error e =>
    cases e with
    | azureHttpError =>
      refine ⟨readErrMsg (joinPath st.remote_base (env.renderFilename ti n)), ?_, ?_, ?_⟩
      · simp [read_logs, hex, wasb_read, hh, hrf]
      · rintro h2 s2 hh2 hrf2
        rw [hh] at hh2
        injection hh2 with hh2
        subst hh2
        rw [hrf] at hrf2
        exact absurd hrf2 (by simp)
      · intro _ _ _
        rfl
    | other => exact absurd hrf (hra h hh)

/-- C7, witness for `read_remote_first` at a working remote: the remote blob
exists and holds `"REMOTE"`. -/
theorem read_remote_first_witness :
    read_logs okEnv (init "/lb" "/rb" "c" false) [] ⟨1, false⟩ 1 (some "tok")
      = .ok (remoteHeader (joinPath "/rb" "r") "REMOTE", [("end_of_log", true)]) := by
  obtain ⟨content, hread, hok, -⟩ :=
    (read_remote_first okEnv (init "/lb" "/rb" "c" false) [] ⟨1, false⟩ 1 (some "tok") rfl
      (by rintro h ⟨rfl⟩; simp [okHook])).1
  rw [hread, hok okHook "REMOTE" rfl rfl]
  rfl

/-- C1, counterexample: the claim says that after the first `close` the
`closed` flag is true regardless of branch, including when
`upload_on_close` is false, and that a second close performs no parent
close.  In the code, the `upload_on_close=False` branch returns before
`self.closed = True` is reached, so after a first close the flag is still
false and a second close calls the parent close again. -/
theorem close_not_idempotent_without_upload :
    (close none { init "/lb" "/rb" "c" false with upload_on_close := false } [] []).st.closed = false
    ∧ (close none
        ((close none { init "/lb" "/rb" "c" false with upload_on_close := false } [] []).st)
        [] []).trace = [Event.parentClose] :=
  ⟨rfl, rfl⟩

/-- C1, amended: once `closed` is true, `close` is a pure no-op (no parent
close, no remote write, no local delete, nothing changed); a first close
that passes the `upload_on_close` guard and raises no exception does set
`closed := true`; but a first close with `upload_on_close = false` returns
right after the parent close without setting `closed`, so that branch is
not idempotent (each call repeats the parent close), though it still never
writes remotely or deletes locally. -/
theorem close_idempotence (hook : Option WasbHook) (st : HandlerState)
    (fs : LocalFs) (store : RemoteStore) :
    (st.closed = true → close hook st fs store = ⟨st, store, fs, [], none⟩)
    ∧ (st.closed = false → st.upload_on_close = true →
        (close hook st fs store).raised = none →
        (close hook st fs store).st.closed = true)
    ∧ (st.closed = false → st.upload_on_close = false →
        (close hook st fs store).st = st
        ∧ (close hook st fs store).trace = [Event.parentClose]
        ∧ (close hook st fs store).store = store
        ∧ (close hook st fs store).fs = fs) := by
  refine ⟨?_, ?_, ?_⟩
  · intro h
    simp [close, h]
  · intro h1 h2
    cases hget : LocalFs.get fs (joinPath st.local_base st.log_relative_path) with
    | none =>
      intro _
      simp [close, h1, h2, hget]
    | some log =>
      cases hw : wasb_write hook st.wasb_container log
          (joinPath st.remote_base st.log_relative_path) true store with
      | error e =>
        intro hr
        exfalso
        simp [close, h1, h2, hget, hw] at hr
      | ok store' =>
        intro _
        by_cases hd : st.delete_local_copy <;>
          simp [close, h1, h2, hget, hw, hd]
  · intro h1 h2
    refine ⟨?_, ?_, ?_, ?_⟩ <;> simp [close, h1, h2]

/-- C1, witness for `close_idempotence`: an already-closed handler's close
changes nothing; a fresh handler with no local file ends up closed; a fresh
handler with `upload_on_close = false` keeps its state. -/
theorem close_idempotence_witness :
    close none { init "/lb" "/rb" "c" false with closed := true } [] []
      = ⟨{ init "/lb" "/rb" "c" false with closed := true }, [], [], [], none⟩
    ∧ (close none (init "/lb" "/rb" "c" false) [] []).st.closed = true
    ∧ (close none { init "/lb" "/rb" "c" false with upload_on_close := false }
        [("/lb/", "X")] []).trace = [Event.parentClose] :=
  ⟨(close_idempotence none { init "/lb" "/rb" "c" false with closed := true } [] []).1 rfl,
   (close_idempotence none (init "/lb" "/rb" "c" false) [] []).2.1 rfl rfl rfl,
   ((close_idempotence none { init "/lb" "/rb" "c" false with upload_on_close := false }
      [("/lb/", "X")] []).2.2 rfl rfl).2.1⟩

/-- C6: after establishing context for `ti`, a first close calls the remote
write exactly when the raw flag was false (so `upload_on_close` was set
true) and a local log file exists at the joined local location; in
particular a raw run never triggers a remote write, whatever the local
filesystem holds. -/
theorem upload_iff_flag_and_file (env : Env) (ti : Ti) (st : HandlerState)
    (fs : LocalFs) (store : RemoteStore) (hclosed : st.closed = false) :
    ((close env.hook (set_context env ti st) fs store).trace.any Event.isRemoteWrite = true
      ↔ ti.raw = false
        ∧ (fs.get (joinPath st.local_base (env.renderFilename ti ti.tryNumber))).isSome = true)
    ∧ (ti.raw = true →
      (close env.hook (set_context env ti st) fs store).trace.any Event.isRemoteWrite = false) := by
  cases hraw : ti.raw with
  | true =>
    constructor
    · constructor
      · intro hany
        exfalso
        rw [show (set_context env ti st) =
            { st with log_relative_path := env.renderFilename ti ti.tryNumber,
                      upload_on_close := false } by simp [set_context, hraw]] at hany
        simp [close, hclosed, Event.isRemoteWrite] at hany
      · rintro ⟨h, -⟩
        exact absurd h (by simp [hraw])
    · intro _
      rw [show (set_context env ti st) =
          { st with log_relative_path := env.renderFilename ti ti.tryNumber,
                    upload_on_close := false } by simp [set_context, hraw]]
      simp [close, hclosed, Event.isRemoteWrite]
  | false =>
    rw [show (set_context env ti st) =
        { st with log_relative_path := env.renderFilename ti ti.tryNumber,
                  upload_on_close := true } by simp [set_context, hraw]]
    refine ⟨?_, by simp [hraw]⟩
    cases hget : LocalFs.get fs (joinPath st.local_base (env.renderFilename ti ti.tryNumber)) with
    | none =>
      simp [close, hclosed, hget, Event.isRemoteWrite]
    | some log =>
      cases hw : wasb_write env.hook st.wasb_container log
          (joinPath st.remote_base (env.renderFilename ti ti.tryNumber)) true store with
      | error e =>
        simp [close, hclosed, hget, hw, Event.isRemoteWrite]
      | ok store' =>
        by_cases hd : st.delete_local_copy <;>
          simp [close, hclosed, hget, hw, hd, Event.isRemoteWrite]

/-- C6, witness for `upload_iff_flag_and_file`: a non-raw run whose local
file exists does call the remote write. -/
theorem upload_iff_flag_and_file_witness :
    (close demoEnv.hook (set_context demoEnv ⟨1, false⟩ (init "/lb" "/rb" "c" false))
      [("/lb/r", "X")] []).trace.any Event.isRemoteWrite = true :=
  (upload_iff_flag_and_file demoEnv ⟨1, false⟩ (init "/lb" "/rb" "c" false)
    [("/lb/r", "X")] [] rfl).1.mpr ⟨rfl, by decide⟩

/-- C9: in any close, a local delete can only appear as the last event of
the trace `[parentClose, remoteWriteCall, localDelete]`, i.e. strictly
after the remote write has been attempted; and when no local log file
exists, no delete happens at all. -/
theorem delete_only_after_upload (hook : Option WasbHook) (st : HandlerState)
    (fs : LocalFs) (store : RemoteStore) (hdel : st.delete_local_copy = true) :
    (∀ d, Event.localDelete d ∈ (close hook st fs store).trace →
      ∃ loc text, (close hook st fs store).trace
        = [Event.parentClose, Event.remoteWriteCall loc text, Event.localDelete d])
    ∧ (fs.get (joinPath st.local_base st.log_relative_path) = none →
      ∀ d, Event.localDelete d ∉ (close hook st fs store).trace) := by
  cases hc : st.closed with
  | true =>
    refine ⟨?_, ?_⟩
    · intro d hd
      exact absurd hd (by simp [close, hc])
    · intro _ d
      simp [close, hc]
  | false =>
    cases hu : st.upload_on_close with
    | false =>
      refine ⟨?_, ?_⟩
      · intro d hd
        exact absurd hd (by simp [close, hc, hu])
      · intro _ d
        simp [close, hc, hu]
    | true =>
      cases hget : LocalFs.get fs (joinPath st.local_base st.log_relative_path) with
      | none =>
        refine ⟨?_, ?_⟩
        · intro d hd
          exact absurd hd (by simp [close, hc, hu, hget])
        · intro _ d
          simp [close, hc, hu, hget]
      | some log =>
        refine ⟨?_, fun hnone => Option.noConfusion hnone⟩
        intro d hd
        cases hw : wasb_write hook st.wasb_container log
            (joinPath st.remote_base st.log_relative_path) true store with
        | error e =>
          exact absurd hd (by simp [close, hc, hu, hget, hw])
        | ok store' =>
          refine ⟨joinPath st.remote_base st.log_relative_path, log, ?_⟩
          have hdd : d = dirname (joinPath st.local_base st.log_relative_path) := by
            rw [show (close hook st fs store).trace
                = [Event.parentClose,
                   Event.remoteWriteCall (joinPath st.remote_base st.log_relative_path) log,
                   Event.localDelete (dirname (joinPath st.local_base st.log_relative_path))]
              from by simp [close, hc, hu, hget, hw, hdel]] at hd
            simpa using hd
          rw [hdd]
          simp [close, hc, hu, hget, hw, hdel]

/-- C9, witness for `delete_only_after_upload`: with the store-backed hook,
a file present and the delete option on, the local-delete event is the last
event, strictly after the remote-write event. -/
theorem delete_only_after_upload_witness :
    ∃ loc text,
      (close (some storeHook) (init "/lb" "/rb" "c" true) [("/lb/", "X")] []).trace
        = [Event.parentClose, Event.remoteWriteCall loc text,
           Event.localDelete (dirname (joinPath "/lb" ""))] :=
  (delete_only_after_upload (some storeHook) (init "/lb" "/rb" "c" true)
    [("/lb/", "X")] [] rfl).1 (dirname (joinPath "/lb" "")) (by decide)

/-- C10: a freshly constructed handler has `upload_on_close = true`,
`log_relative_path = ""` and `closed = false`; a close on it always starts
with the parent close (it is not a no-op), and when a local file exists at
the bare local root joined with the empty relative path, the remote write
is called at the bare remote root joined with the empty relative path
(POSIX join with the empty string appends a trailing separator). -/
theorem init_close_upload_branch (blf wlf wc : String) (dlc : Bool) :
    (init blf wlf wc dlc).upload_on_close = true
    ∧ (init blf wlf wc dlc).log_relative_path = ""
    ∧ (init blf wlf wc dlc).closed = false
    ∧ (∀ hook fs store,
        (close hook (init blf wlf wc dlc) fs store).trace.head? = some Event.parentClose)
    ∧ (∀ hook fs store log, fs.get (joinPath blf "") = some log →
        Event.remoteWriteCall (joinPath wlf "") log
          ∈ (close hook (init blf wlf wc dlc) fs store).trace) := by
  refine ⟨rfl, rfl, rfl, ?_, ?_⟩
  · intro hook fs store
    cases hget : LocalFs.get fs (joinPath blf "") with
    | none =>
      simp [close, init, hget]
    | some log =>
      cases hw : wasb_write hook wc log (joinPath wlf "") true store with
      | error e =>
        simp [close, init, hget, hw]
      | ok store' =>
        cases dlc <;> simp [close, init, hget, hw]
  · intro hook fs store log hget
    cases hw : wasb_write hook wc log (joinPath wlf "") true store with
    | error e =>
      simp [close, init, hget, hw]
    | ok store' =>
      cases dlc <;> simp [close, init, hget, hw]

/-- C10, witness for `init_close_upload_branch` at concrete roots: a close
on a never-contextualised handler uploads the file found at the bare local
root (with trailing separator) to the bare remote root. -/
theorem init_close_upload_branch_witness :
    Event.remoteWriteCall (joinPath "/rb" "") "X"
      ∈ (close (some storeHook) (init "/lb" "/rb" "c" false) [("/lb/", "X")] []).trace :=
  (init_close_upload_branch "/lb" "/rb" "c" false).2.2.2.2 (some storeHook)
    [("/lb/", "X")] [] "X" (by decide)

end WasbSpec
